import Mathlib

/-!
# Verification of `future.c` (glhrmfrts/future.c)

Shallow embedding of the future primitive implemented in `src/future.c`.
The future cell is `struct ftr_header` together with the two payload slots
`in_value` / `out_value` generated by the `ftr_of(T)` macro.  The payload
type is a parameter `α` here; `memcpy` of the whole `value_size`-byte slot
(performed by the source only after checking `dest_size == value_size`)
becomes a whole-value copy.

Stateful C functions become pure functions returning the result code
together with the updated header and, where a claim needs it, the sequence
of mutex/condition-variable operations the function performed
(`SyncOp` trace) and the outcome the environment chose for the blocking
`cnd_timedwait` call (`CndWaitResult`).
-/

namespace FutureC

/-- Error codes: the anonymous `enum` of `future.c` (lines 53-60), in
declaration order starting at 0. -/
def ftr_success : Nat := 0

def ftr_timedout : Nat := 1

def ftr_invalid : Nat := 2

def ftr_nomem : Nat := 3

def ftr_destsize : Nat := 4

def ftr_error : Nat := 5

/-- `struct ftr_header` (lines 62-70) together with the `in_value` /
`out_value` slots added by `ftr_of(T)` (line 72).  The `cnd_t` / `mtx_t`
members carry no observable state of their own; the operations performed
on them are recorded in the `SyncOp` traces of the functions instead.
`in_offs` / `out_offs` are raw offsets used only to address the two slots,
which are fields here, so they are not modelled separately. -/
structure FtrHeader (α : Type) where
  is_valid : Bool
  is_set : Bool
  value_size : Nat
  in_value : α
  out_value : α
deriving DecidableEq, Repr

/-- Operations on the header's mutex / condition variable, in the order a
function performs them. -/
inductive SyncOp where
  | lock
  | unlock
  | timedwait
  | signalCnd
deriving DecidableEq, Repr

/-- Result of the `cnd_timedwait` call in `ftr_wait_` (line 159): C11
`thrd_success` (which includes spurious wakeups), `thrd_timedout`, or any
other error.  Chosen by the environment when the code blocks. -/
inductive CndWaitResult where
  | success
  | timedout
  | failure
deriving DecidableEq, Repr

/-- Result record of `ftr_wait_`: return code, header after the call, and
the mutex/condvar operations performed. -/
structure WaitRet (α : Type) where
  code : Nat
  fh : FtrHeader α
  ops : List SyncOp
deriving DecidableEq, Repr

/-- `ftr_wait_` (lines 142-170).  It locks the mutex, returns success at
once if `is_set`, returns timedout at once if `timeout_ms == 0`, and
otherwise blocks in `cnd_timedwait`; the branch taken after the wake
depends only on the `cnd_timedwait` return value `wake` — the function
assigns no field of the header on any path, and it never reads `is_set`
again after the wait. -/
def ftr_wait_ (fh : FtrHeader α) (timeout_ms : Int) (wake : CndWaitResult) :
    WaitRet α :=
  if fh.is_set then
    ⟨ftr_success, fh, [SyncOp.lock, SyncOp.unlock]⟩
  else if timeout_ms = 0 then
    ⟨ftr_timedout, fh, [SyncOp.lock, SyncOp.unlock]⟩
  else
    match wake with
    | CndWaitResult.timedout =>
        ⟨ftr_timedout, fh, [SyncOp.lock, SyncOp.timedwait, SyncOp.unlock]⟩
    | CndWaitResult.failure =>
        ⟨ftr_error, fh, [SyncOp.lock, SyncOp.timedwait, SyncOp.unlock]⟩
    | CndWaitResult.success =>
        ⟨ftr_success, fh, [SyncOp.lock, SyncOp.timedwait, SyncOp.unlock]⟩

/-- Result record of `ftr_get_`: return code, header after the call, the
caller's destination buffer after the call, and the mutex/condvar
operations performed. -/
structure GetRet (α : Type) where
  code : Nat
  fh : FtrHeader α
  dest : α
  ops : List SyncOp
deriving DecidableEq, Repr

/-- `ftr_get_` (lines 172-193).  Checks `is_valid` (an atomic read, before
any mutex use), then the destination size, then delegates to `ftr_wait_`;
on a successful wait it copies `out_value` into the destination and clears
`is_valid`.  On every non-success path the destination buffer is returned
untouched. -/
def ftr_get_ (fh : FtrHeader α) (timeout_ms : Int) (dest : α)
    (dest_size : Nat) (wake : CndWaitResult) : GetRet α :=
  if !fh.is_valid then
    ⟨ftr_invalid, fh, dest, []⟩
  else if dest_size ≠ fh.value_size then
    ⟨ftr_destsize, fh, dest, []⟩
  else
    let w := ftr_wait_ fh timeout_ms wake
    if w.code ≠ ftr_success then
      ⟨w.code, w.fh, dest, w.ops⟩
    else
      ⟨ftr_success, { w.fh with is_valid := false }, w.fh.out_value, w.ops⟩

/-- Result record of `ftr_complete_`: return code, header after the call,
and the mutex/condvar operations performed. -/
structure CompleteRet (α : Type) where
  code : Nat
  fh : FtrHeader α
  ops : List SyncOp
deriving DecidableEq, Repr

/-- `ftr_complete_` (lines 195-209).  Rejects an invalid or already-set
future; otherwise, under the mutex, copies `in_value` to `out_value`,
sets `is_set`, calls `cnd_signal` (line 205) and then `mtx_unlock`
(line 206). -/
def ftr_complete_ (fh : FtrHeader α) : CompleteRet α :=
  if !fh.is_valid || fh.is_set then
    ⟨ftr_invalid, fh, []⟩
  else
    ⟨ftr_success, { fh with out_value := fh.in_value, is_set := true },
      [SyncOp.lock, SyncOp.signalCnd, SyncOp.unlock]⟩

/-- The `ftr_complete(future, val)` macro (line 82): it stores `val` into
`in_value` unconditionally, then calls `ftr_complete_`. -/
def ftr_complete (fh : FtrHeader α) (val : α) : CompleteRet α :=
  ftr_complete_ { fh with in_value := val }

/-- `ftr_destroy_` (lines 131-135): clears `is_valid` and tears down the
condition variable and the mutex (which is why later operations must not
touch them). -/
def ftr_destroy_ (fh : FtrHeader α) : FtrHeader α :=
  { fh with is_valid := false }

/-- C11 `cnd_signal` unblocks one of the threads blocked on the condition
variable: with `waiters` threads blocked, `min 1 waiters` are woken. -/
def cnd_signal_woken (waiters : Nat) : Nat := min 1 waiters

/-- Number of waiters a `ftr_complete_` call wakes, out of `waiters`
threads blocked on the future's condition variable: the sum of the wakes
produced by the condvar operations it performs. -/
def completeWoken (fh : FtrHeader α) (waiters : Nat) : Nat :=
  ((ftr_complete_ fh).ops.map fun op =>
    match op with
    | SyncOp.signalCnd => cnd_signal_woken waiters
    | _ => 0).sum

/-- `struct timespec`: seconds and nanoseconds. -/
structure Timespec where
  tv_sec : Int
  tv_nsec : Int
deriving DecidableEq, Repr

/-- The absolute deadline `ftr_wait_` hands to `cnd_timedwait`
(lines 156-157): `end.tv_sec = start.tv_sec + timeout_ms / 1000;`
`end.tv_nsec = (timeout_ms % 1000) * 1000000;`.  For `timeout_ms > 0`
C's truncating `/` and `%` agree with Lean's `Int` division. -/
def ftr_wait_deadline (start : Timespec) (timeout_ms : Int) : Timespec :=
  { tv_sec := start.tv_sec + timeout_ms / 1000
    tv_nsec := timeout_ms % 1000 * 1000000 }

/-- A timespec as a number of nanoseconds. -/
def toNanos (t : Timespec) : Int :=
  t.tv_sec * 1000000000 + t.tv_nsec

/-- The deadline the spec asks for, in nanoseconds: the current time plus
exactly `timeout_ms` milliseconds (spec-side definition, for comparison
with `ftr_wait_deadline`). -/
def specDeadlineNanos (start : Timespec) (timeout_ms : Int) : Int :=
  toNanos start + timeout_ms * 1000000

/-- Outcome of `ftr_new_` (lines 121-129).  `calloc` either returns zeroed
memory or NULL; the source passes the result to `ftr_init_` without a NULL
check, and `ftr_init_`'s first statement (`fh->is_valid = true`, line 107)
stores through the pointer, so a failed allocation is a store through NULL
(`nullDereference`), not an error return.  A `cnd_init`/`mtx_init` failure
makes `ftr_new_` print and return NULL (`initFailed`). -/
inductive NewOutcome (α : Type) where
  | ok (fh : FtrHeader α)
  | initFailed
  | nullDereference
deriving DecidableEq, Repr

/-- `ftr_init_` (lines 106-119) on a non-NULL header: sets the flags and
sizes, then initializes the condvar and the mutex, failing with
`ftr_error` if either init fails. -/
def ftr_init_ (fh : FtrHeader α) (vsize : Nat) (cndOk mtxOk : Bool) :
    Nat × FtrHeader α :=
  let fh' : FtrHeader α :=
    { fh with is_valid := true, is_set := false, value_size := vsize }
  if !cndOk then (ftr_error, fh')
  else if !mtxOk then (ftr_error, fh')
  else (ftr_success, fh')

/-- The all-zero header `calloc(1, wholesize)` produces, given the zero
value of the payload type. -/
def callocHeader (zero : α) : FtrHeader α :=
  { is_valid := false, is_set := false, value_size := 0
    in_value := zero, out_value := zero }

/-- `ftr_new_` (lines 121-129).  `allocOk` is whether `calloc` obtained
memory, `cndOk` / `mtxOk` whether `cnd_init` / `mtx_init` succeed.  When
`calloc` returns NULL the code still calls `ftr_init_` on it, which
dereferences the NULL pointer; no path returns `ftr_nomem`. -/
def ftr_new_ (allocOk cndOk mtxOk : Bool) (vsize : Nat) (zero : α) :
    NewOutcome α :=
  if !allocOk then
    NewOutcome.nullDereference
  else
    let r := ftr_init_ (callocHeader zero) vsize cndOk mtxOk
    if r.1 ≠ ftr_success then NewOutcome.initFailed
    else NewOutcome.ok r.2

/-! ## Helper lemmas -/

/-- `ftr_wait_` assigns no field of the header on any path. -/
theorem wait_fh_eq (fh : FtrHeader α) (t : Int) (w : CndWaitResult) :
    (ftr_wait_ fh t w).fh = fh := by
  unfold ftr_wait_
  split
  · rfl
  · split
    · rfl
    · cases w <;> rfl

/-- A `TimedOut` return from `ftr_wait_` implies the future was not
completed on entry (a completed future returns success at once). -/
theorem wait_timedout_not_set (fh : FtrHeader α) (t : Int)
    (w : CndWaitResult) (h : (ftr_wait_ fh t w).code = ftr_timedout) :
    fh.is_set = false := by
  by_cases hs : fh.is_set
  · simp [ftr_wait_, hs, ftr_success, ftr_timedout] at h
  · simpa using hs

/-! ## Theorems about the claims -/

/-- C4 (counter-evidence / code bug): the deadline handed to
`cnd_timedwait` is NOT the current time plus `timeout_ms` milliseconds:
`end.tv_nsec` is computed from `timeout_ms` alone, discarding
`start.tv_nsec`.  At `start = {tv_sec = 0, tv_nsec = 999999999}` and
`timeout_ms = 1` the code's deadline is `{0, 1000000}` = 1000000 ns,
whereas `start + 1ms` is 1000999999 ns; the computed deadline even
precedes the current time, so the timed wait can expire immediately. -/
theorem deadline_drops_start_nanoseconds :
    toNanos (ftr_wait_deadline ⟨0, 999999999⟩ 1) = 1000000 ∧
    specDeadlineNanos ⟨0, 999999999⟩ 1 = 1000999999 ∧
    toNanos (ftr_wait_deadline ⟨0, 999999999⟩ 1) <
      toNanos (⟨0, 999999999⟩ : Timespec) := by
  decide

/-- C8 (counter-evidence / code bug): when `calloc` fails, `ftr_new_`
does not return an `ftr_nomem` error to the caller; it passes the NULL
pointer to `ftr_init_`, whose first statement stores through it — a NULL
dereference — for every combination of `cnd_init`/`mtx_init` outcomes
and every payload size. -/
theorem alloc_failure_dereferences_null (cndOk mtxOk : Bool) (vsize : Nat) :
    ftr_new_ false cndOk mtxOk vsize (0 : Int) =
      NewOutcome.nullDereference := by
  rfl

/-- C3 (counterexample): on a valid, not-yet-completed future with
`timeout > 0`, a `cnd_timedwait` that returns success while `is_set` is
still false (a spurious wakeup: no timeout, no completion) makes
`ftr_wait_` return `ftr_success` — so a success return does not imply the
completed flag is true, refuting the claim that the flag is re-checked
after the wake. -/
theorem spurious_wake_yields_success_without_completion :
    (ftr_wait_ (⟨true, false, 1, 0, 0⟩ : FtrHeader Int) 1000
        CndWaitResult.success).code = ftr_success ∧
    (ftr_wait_ (⟨true, false, 1, 0, 0⟩ : FtrHeader Int) 1000
        CndWaitResult.success).fh.is_set = false := by
  decide

/-- C3 (amended): with `timeout ≠ 0` on a not-completed future, the
return code of `ftr_wait_` after the blocking wait is a function of the
`cnd_timedwait` result alone — success on a success report (even a
spurious one, with `completed` still false), `TimedOut` on a timeout
report, `Error` otherwise; the completed flag is not re-checked and the
header is unchanged. -/
theorem wait_code_after_wake_ignores_completion (fh : FtrHeader α)
    (t : Int) (w : CndWaitResult) (ht : t ≠ 0) (hs : fh.is_set = false) :
    (ftr_wait_ fh t w).code =
      (match w with
        | CndWaitResult.timedout => ftr_timedout
        | CndWaitResult.failure => ftr_error
        | CndWaitResult.success => ftr_success) ∧
    (ftr_wait_ fh t w).fh = fh := by
  cases w <;> simp [ftr_wait_, hs, ht]

/-- C3 witness: the amended theorem evaluated at a concrete not-completed
future with `timeout = 1000` and a timeout wake. -/
theorem wait_code_after_wake_ignores_completion_witness :
    (1000 : Int) ≠ 0 ∧
    (FtrHeader.is_set (⟨true, false, 1, 0, 0⟩ : FtrHeader Int) = false) ∧
    ((ftr_wait_ (⟨true, false, 1, 0, 0⟩ : FtrHeader Int) 1000
        CndWaitResult.timedout).code = ftr_timedout ∧
      (ftr_wait_ (⟨true, false, 1, 0, 0⟩ : FtrHeader Int) 1000
        CndWaitResult.timedout).fh = ⟨true, false, 1, 0, 0⟩) :=
  ⟨by decide, by decide,
    wait_code_after_wake_ignores_completion (⟨true, false, 1, 0, 0⟩ :
      FtrHeader Int) 1000 CndWaitResult.timedout (by decide) (by decide)⟩

/-- C6: `ftr_wait_` with `timeout_ms = 0` on a valid future polls: it
returns success exactly when the future is already completed and
`TimedOut` otherwise, it never reaches the blocking `cnd_timedwait`
(no `timedwait` operation is performed, whatever wake outcome the
environment would choose), and the header is unchanged. -/
theorem wait_zero_polls_without_blocking (fh : FtrHeader α)
    (w : CndWaitResult) (hv : fh.is_valid = true) :
    (ftr_wait_ fh 0 w).code =
      (if fh.is_set then ftr_success else ftr_timedout) ∧
    SyncOp.timedwait ∉ (ftr_wait_ fh 0 w).ops ∧
    (ftr_wait_ fh 0 w).fh = fh := by
  by_cases hs : fh.is_set <;> simp [ftr_wait_, hs]

/-- C6 witness: polling a valid, not-completed future returns `TimedOut`
without blocking. -/
theorem wait_zero_polls_without_blocking_witness :
    (FtrHeader.is_valid (⟨true, false, 1, 0, 0⟩ : FtrHeader Int) = true) ∧
    ((ftr_wait_ (⟨true, false, 1, 0, 0⟩ : FtrHeader Int) 0
        CndWaitResult.success).code =
      (if FtrHeader.is_set (⟨true, false, 1, 0, 0⟩ : FtrHeader Int) then
        ftr_success else ftr_timedout) ∧
      SyncOp.timedwait ∉ (ftr_wait_ (⟨true, false, 1, 0, 0⟩ :
        FtrHeader Int) 0 CndWaitResult.success).ops ∧
      (ftr_wait_ (⟨true, false, 1, 0, 0⟩ : FtrHeader Int) 0
        CndWaitResult.success).fh = ⟨true, false, 1, 0, 0⟩) :=
  ⟨by decide,
    wait_zero_polls_without_blocking (⟨true, false, 1, 0, 0⟩ :
      FtrHeader Int) CndWaitResult.success (by decide)⟩

/-- C10: whenever `ftr_get_` returns anything other than success
(`Invalid`, `SizeMismatch`, `TimedOut` or `Error`), the caller's
destination buffer comes back exactly as it was passed in — the payload
`memcpy` into `dest` happens only on the success path. -/
theorem get_failure_leaves_dest_unmodified (fh : FtrHeader α) (t : Int)
    (dest : α) (ds : Nat) (w : CndWaitResult)
    (h : (ftr_get_ fh t dest ds w).code ≠ ftr_success) :
    (ftr_get_ fh t dest ds w).dest = dest := by
  by_cases hv : fh.is_valid
  · by_cases hd : ds = fh.value_size
    · by_cases hc : (ftr_wait_ fh t w).code = ftr_success
      · exfalso
        apply h
        simp [ftr_get_, hv, hd, hc]
      · simp [ftr_get_, hv, hd, hc]
    · simp [ftr_get_, hv, hd]
  · simp [ftr_get_, hv]

/-- C10 witness: a `Get` on a destroyed future fails with `Invalid` and
returns the destination buffer (here `99`) untouched. -/
theorem get_failure_leaves_dest_unmodified_witness :
    (ftr_get_ (⟨false, true, 1, 7, 7⟩ : FtrHeader Int) 1000 99 1
        CndWaitResult.success).code ≠ ftr_success ∧
    (ftr_get_ (⟨false, true, 1, 7, 7⟩ : FtrHeader Int) 1000 99 1
        CndWaitResult.success).dest = 99 :=
  ⟨by decide,
    get_failure_leaves_dest_unmodified (⟨false, true, 1, 7, 7⟩ :
      FtrHeader Int) 1000 99 1 CndWaitResult.success (by decide)⟩

/-- C1 (counterexample): reads are NOT repeatable.  Complete a fresh int
future with `42`; a first `Get` succeeds and returns `42`, but it clears
`is_valid` (line 191 of the source), so a second `Get` fails with
`Invalid` instead of succeeding again — exactly what the source's own
`ftr_test_twice` test asserts. -/
theorem second_get_after_successful_get_fails :
    (ftr_complete (⟨true, false, 1, 0, 0⟩ : FtrHeader Int) 42).code =
      ftr_success ∧
    (ftr_get_ (ftr_complete (⟨true, false, 1, 0, 0⟩ : FtrHeader Int)
        42).fh 1000 0 1 CndWaitResult.success).code = ftr_success ∧
    (ftr_get_ (ftr_complete (⟨true, false, 1, 0, 0⟩ : FtrHeader Int)
        42).fh 1000 0 1 CndWaitResult.success).dest = 42 ∧
    (ftr_get_ (ftr_get_ (ftr_complete (⟨true, false, 1, 0, 0⟩ :
        FtrHeader Int) 42).fh 1000 0 1 CndWaitResult.success).fh
        1000 0 1 CndWaitResult.success).code = ftr_invalid := by
  decide

/-- C1 (amended): once `Complete(v)` succeeds, the next `Get` (with a
matching destination size) succeeds and returns `v`, but a successful
`Get` consumes the future: it clears `is_valid` after copying the value
out, so every later `Get` returns `Invalid`. -/
theorem successful_get_consumes_future (fh : FtrHeader α) (v : α)
    (t t2 : Int) (dest dest2 : α) (w w2 : CndWaitResult)
    (hv : fh.is_valid = true) (hs : fh.is_set = false) :
    (ftr_complete fh v).code = ftr_success ∧
    (ftr_get_ (ftr_complete fh v).fh t dest fh.value_size w).code =
      ftr_success ∧
    (ftr_get_ (ftr_complete fh v).fh t dest fh.value_size w).dest = v ∧
    (ftr_get_ (ftr_complete fh v).fh t dest
      fh.value_size w).fh.is_valid = false ∧
    (ftr_get_ (ftr_get_ (ftr_complete fh v).fh t dest fh.value_size w).fh
      t2 dest2 fh.value_size w2).code = ftr_invalid := by
  simp [ftr_complete, ftr_complete_, ftr_get_, ftr_wait_, hv, hs]

/-- C1 witness: the amended theorem at a fresh int future completed with
`42`. -/
theorem successful_get_consumes_future_witness :
    (FtrHeader.is_valid (⟨true, false, 1, 0, 0⟩ : FtrHeader Int) = true) ∧
    (FtrHeader.is_set (⟨true, false, 1, 0, 0⟩ : FtrHeader Int) = false) ∧
    ((ftr_complete (⟨true, false, 1, 0, 0⟩ : FtrHeader Int) 42).code =
        ftr_success ∧
      (ftr_get_ (ftr_complete (⟨true, false, 1, 0, 0⟩ : FtrHeader Int)
          42).fh 1000 0 1 CndWaitResult.success).code = ftr_success ∧
      (ftr_get_ (ftr_complete (⟨true, false, 1, 0, 0⟩ : FtrHeader Int)
          42).fh 1000 0 1 CndWaitResult.success).dest = 42 ∧
      (ftr_get_ (ftr_complete (⟨true, false, 1, 0, 0⟩ : FtrHeader Int)
          42).fh 1000 0 1 CndWaitResult.success).fh.is_valid = false ∧
      (ftr_get_ (ftr_get_ (ftr_complete (⟨true, false, 1, 0, 0⟩ :
          FtrHeader Int) 42).fh 1000 0 1 CndWaitResult.success).fh
          1000 0 1 CndWaitResult.success).code = ftr_invalid) :=
  ⟨by decide, by decide,
    successful_get_consumes_future (⟨true, false, 1, 0, 0⟩ : FtrHeader Int)
      42 1000 1000 0 0 CndWaitResult.success CndWaitResult.success
      (by decide) (by decide)⟩

/-- C5: double completion is rejected without overwriting.  On a valid,
not-yet-completed future, `Complete(v)` succeeds; a second `Complete(w)`
returns `Invalid` and leaves the visible payload slot (`out_value`)
holding `v`, so a subsequent `Get` (matching destination size) succeeds
and returns `v`, not `w`. -/
theorem double_complete_rejected_not_overwritten (fh : FtrHeader α)
    (v w : α) (t : Int) (dest : α) (wk : CndWaitResult)
    (hv : fh.is_valid = true) (hs : fh.is_set = false) :
    (ftr_complete fh v).code = ftr_success ∧
    (ftr_complete (ftr_complete fh v).fh w).code = ftr_invalid ∧
    (ftr_complete (ftr_complete fh v).fh w).fh.out_value = v ∧
    (ftr_get_ (ftr_complete (ftr_complete fh v).fh w).fh t dest
      fh.value_size wk).code = ftr_success ∧
    (ftr_get_ (ftr_complete (ftr_complete fh v).fh w).fh t dest
      fh.value_size wk).dest = v := by
  simp [ftr_complete, ftr_complete_, ftr_get_, ftr_wait_, hv, hs]

/-- C5 witness: the spec's scenario — complete with `7`, a second
`Complete(9)` returns `Invalid`, `Get` still returns `7`. -/
theorem double_complete_rejected_not_overwritten_witness :
    (FtrHeader.is_valid (⟨true, false, 1, 0, 0⟩ : FtrHeader Int) = true) ∧
    (FtrHeader.is_set (⟨true, false, 1, 0, 0⟩ : FtrHeader Int) = false) ∧
    ((ftr_complete (⟨true, false, 1, 0, 0⟩ : FtrHeader Int) 7).code =
        ftr_success ∧
      (ftr_complete (ftr_complete (⟨true, false, 1, 0, 0⟩ :
          FtrHeader Int) 7).fh 9).code = ftr_invalid ∧
      (ftr_complete (ftr_complete (⟨true, false, 1, 0, 0⟩ :
          FtrHeader Int) 7).fh 9).fh.out_value = 7 ∧
      (ftr_get_ (ftr_complete (ftr_complete (⟨true, false, 1, 0, 0⟩ :
          FtrHeader Int) 7).fh 9).fh 1000 0 1
          CndWaitResult.success).code = ftr_success ∧
      (ftr_get_ (ftr_complete (ftr_complete (⟨true, false, 1, 0, 0⟩ :
          FtrHeader Int) 7).fh 9).fh 1000 0 1
          CndWaitResult.success).dest = 7) :=
  ⟨by decide, by decide,
    double_complete_rejected_not_overwritten (⟨true, false, 1, 0, 0⟩ :
      FtrHeader Int) 7 9 1000 0 CndWaitResult.success
      (by decide) (by decide)⟩

/-- C2 (counterexample): `ftr_wait_` performs no validity check, so on a
future completed with `7` and then destroyed, `Wait(1000)` returns
success — not `Invalid` as claimed. -/
theorem wait_after_destroy_returns_success_not_invalid :
    (ftr_wait_ (ftr_destroy_ (ftr_complete (⟨true, false, 1, 0, 0⟩ :
        FtrHeader Int) 7).fh) 1000 CndWaitResult.success).code =
      ftr_success ∧
    (ftr_wait_ (ftr_destroy_ (ftr_complete (⟨true, false, 1, 0, 0⟩ :
        FtrHeader Int) 7).fh) 1000 CndWaitResult.success).code ≠
      ftr_invalid := by
  decide

/-- C2 (amended): after `Destroy`, a `Get` returns `Invalid` immediately —
before any mutex or condition-variable operation, so the torn-down
resources are untouched — and leaves the destination unchanged; a `Wait`,
however, does not check validity: it locks the (already destroyed) mutex
on every path, never returns `Invalid`, and returns exactly the code it
would return on the not-yet-destroyed future with the same arguments
(destruction does not change `Wait`'s result) — in particular success if
the future was completed before destruction. -/
theorem post_destroy_get_invalid_wait_unchecked (fh : FtrHeader α)
    (t : Int) (dest : α) (ds : Nat) (w : CndWaitResult) :
    (ftr_get_ (ftr_destroy_ fh) t dest ds w).code = ftr_invalid ∧
    (ftr_get_ (ftr_destroy_ fh) t dest ds w).ops = [] ∧
    (ftr_get_ (ftr_destroy_ fh) t dest ds w).dest = dest ∧
    SyncOp.lock ∈ (ftr_wait_ (ftr_destroy_ fh) t w).ops ∧
    (ftr_wait_ (ftr_destroy_ fh) t w).code ≠ ftr_invalid ∧
    (ftr_wait_ (ftr_destroy_ fh) t w).code = (ftr_wait_ fh t w).code ∧
    (fh.is_set = true →
      (ftr_wait_ (ftr_destroy_ fh) t w).code = ftr_success) := by
  refine ⟨by simp [ftr_get_, ftr_destroy_], by simp [ftr_get_, ftr_destroy_],
    by simp [ftr_get_, ftr_destroy_], ?_, ?_, ?_, ?_⟩ <;>
      by_cases hs : fh.is_set <;> by_cases ht : t = 0 <;> cases w <;>
        simp [ftr_wait_, ftr_destroy_, hs, ht, ftr_success, ftr_timedout,
          ftr_error, ftr_invalid]

/-- C7: a `Get` that returns `TimedOut` leaves the header (valid flag,
completed flag, payload slots) and the destination buffer exactly as they
were (`ftr_wait_` assigns no field on any path), and the future stays
fully usable: once a `Complete(v)` occurs it succeeds, and a following
`Get` succeeds and returns `v`. -/
theorem timedout_get_preserves_state_and_usability (fh : FtrHeader α)
    (t : Int) (dest : α) (ds : Nat) (wk : CndWaitResult)
    (hg : (ftr_get_ fh t dest ds wk).code = ftr_timedout) :
    (ftr_get_ fh t dest ds wk).fh = fh ∧
    (ftr_get_ fh t dest ds wk).dest = dest ∧
    (∀ (t2 : Int) (wk2 : CndWaitResult), (ftr_wait_ fh t2 wk2).fh = fh) ∧
    ∀ (v dest2 : α) (t2 : Int) (wk2 : CndWaitResult),
      (ftr_complete fh v).code = ftr_success ∧
      (ftr_get_ (ftr_complete fh v).fh t2 dest2 fh.value_size wk2).code =
        ftr_success ∧
      (ftr_get_ (ftr_complete fh v).fh t2 dest2 fh.value_size wk2).dest =
        v := by
  by_cases hv : fh.is_valid
  case neg => simp [ftr_get_, hv, ftr_invalid, ftr_timedout] at hg
  by_cases hd : ds = fh.value_size
  case neg => simp [ftr_get_, hv, hd, ftr_destsize, ftr_timedout] at hg
  by_cases hw : (ftr_wait_ fh t wk).code = ftr_success
  case pos => simp [ftr_get_, hv, hd, hw, ftr_success, ftr_timedout] at hg
  have hcode : (ftr_get_ fh t dest ds wk).code = (ftr_wait_ fh t wk).code := by
    simp [ftr_get_, hv, hd, hw]
  have hwt : (ftr_wait_ fh t wk).code = ftr_timedout := hcode ▸ hg
  have hs : fh.is_set = false := wait_timedout_not_set fh t wk hwt
  refine ⟨?_, ?_, fun t2 wk2 => wait_fh_eq fh t2 wk2, ?_⟩
  · simp [ftr_get_, hv, hd, hw, wait_fh_eq]
  · simp [ftr_get_, hv, hd, hw]
  · intro v dest2 t2 wk2
    simp [ftr_complete, ftr_complete_, ftr_get_, ftr_wait_, hv, hs]

/-- C7 witness: a poll (`timeout = 0`) on a fresh, not-completed future
times out; the header and the destination (`99`) are unchanged and a
later `Complete`/`Get` pair succeeds. -/
theorem timedout_get_preserves_state_and_usability_witness :
    (ftr_get_ (⟨true, false, 1, 0, 0⟩ : FtrHeader Int) 0 99 1
        CndWaitResult.success).code = ftr_timedout ∧
    ((ftr_get_ (⟨true, false, 1, 0, 0⟩ : FtrHeader Int) 0 99 1
        CndWaitResult.success).fh = ⟨true, false, 1, 0, 0⟩ ∧
      (ftr_get_ (⟨true, false, 1, 0, 0⟩ : FtrHeader Int) 0 99 1
        CndWaitResult.success).dest = 99 ∧
      (∀ (t2 : Int) (wk2 : CndWaitResult),
        (ftr_wait_ (⟨true, false, 1, 0, 0⟩ : FtrHeader Int) t2 wk2).fh =
          ⟨true, false, 1, 0, 0⟩) ∧
      ∀ (v dest2 : Int) (t2 : Int) (wk2 : CndWaitResult),
        (ftr_complete (⟨true, false, 1, 0, 0⟩ : FtrHeader Int) v).code =
          ftr_success ∧
        (ftr_get_ (ftr_complete (⟨true, false, 1, 0, 0⟩ :
            FtrHeader Int) v).fh t2 dest2
            (FtrHeader.value_size (⟨true, false, 1, 0, 0⟩ :
              FtrHeader Int)) wk2).code = ftr_success ∧
        (ftr_get_ (ftr_complete (⟨true, false, 1, 0, 0⟩ :
            FtrHeader Int) v).fh t2 dest2
            (FtrHeader.value_size (⟨true, false, 1, 0, 0⟩ :
              FtrHeader Int)) wk2).dest = v) :=
  ⟨by decide,
    timedout_get_preserves_state_and_usability
      (⟨true, false, 1, 0, 0⟩ : FtrHeader Int) 0 99 1
      CndWaitResult.success (by decide)⟩

/-- C9 (counterexample): `ftr_complete_` calls `cnd_signal`, which wakes
one blocked thread, not all of them: on a valid, not-completed future
with 2 threads blocked in `Wait`, a successful `Complete` wakes 1 waiter,
not 2. -/
theorem complete_signal_does_not_wake_all :
    (ftr_complete_ (⟨true, false, 1, 5, 0⟩ : FtrHeader Int)).code =
      ftr_success ∧
    completeWoken (⟨true, false, 1, 5, 0⟩ : FtrHeader Int) 2 = 1 ∧
    completeWoken (⟨true, false, 1, 5, 0⟩ : FtrHeader Int) 2 ≠ 2 := by
  decide

/-- C9 (amended): a successful `Complete` performs exactly one
`cnd_signal`, placed before the `mtx_unlock` (its sync-operation trace is
`[lock, signalCnd, unlock]`), so it wakes one of the threads currently
blocked in `Wait` (`min 1 waiters`) — at least one when any are blocked,
but not necessarily all — before releasing the lock. -/
theorem complete_signals_once_before_unlock (fh : FtrHeader α)
    (waiters : Nat) (hv : fh.is_valid = true) (hs : fh.is_set = false) :
    (ftr_complete_ fh).code = ftr_success ∧
    (ftr_complete_ fh).ops =
      [SyncOp.lock, SyncOp.signalCnd, SyncOp.unlock] ∧
    completeWoken fh waiters = min 1 waiters := by
  simp [ftr_complete_, completeWoken, cnd_signal_woken, hv, hs]

/-- C9 witness: the amended theorem at a valid, not-completed int future
with 2 blocked waiters. -/
theorem complete_signals_once_before_unlock_witness :
    (FtrHeader.is_valid (⟨true, false, 1, 5, 0⟩ : FtrHeader Int) = true) ∧
    (FtrHeader.is_set (⟨true, false, 1, 5, 0⟩ : FtrHeader Int) = false) ∧
    ((ftr_complete_ (⟨true, false, 1, 5, 0⟩ : FtrHeader Int)).code =
        ftr_success ∧
      (ftr_complete_ (⟨true, false, 1, 5, 0⟩ : FtrHeader Int)).ops =
        [SyncOp.lock, SyncOp.signalCnd, SyncOp.unlock] ∧
      completeWoken (⟨true, false, 1, 5, 0⟩ : FtrHeader Int) 2 =
        min 1 2) :=
  ⟨by decide, by decide,
    complete_signals_once_before_unlock (⟨true, false, 1, 5, 0⟩ :
      FtrHeader Int) 2 (by decide) (by decide)⟩

end FutureC
